import Mathlib

/-!
Verification of the Task Report QA backend (`backend/app.py`).

The development shallowly embeds the program's pure logic and the
state-passing behaviour of its three HTTP endpoints:

* `parse_suggestions` — the heuristic numbered-list parser for LLM output;
* the in-memory report store (`report_storage`) with `put`/lookup;
* `upload_report` — UTF-8 decoding with Latin-1 fallback, then store;
* `ask_question` — session lookup, two LLM completions, all-or-nothing join;
* `root` — the health check.

Strings are modelled as Lean `String`/`List Char`; file payloads as
`List Nat` byte values.  The LLM backend is an external collaborator and is
modelled as an oracle parameter `String → Except String String` (an
`Except.error` models a raised exception).  Character classification
predicates (`isdigit`, `isalpha`, whitespace for `strip`) are modelled on
the range the claims exercise; Python's versions additionally accept some
non-ASCII Unicode code points that no claim touches.
-/

set_option autoImplicit false

namespace TaskReportQA

/-- Python `str.isdigit` restricted to ASCII: true on the characters 0-9.
Python additionally accepts non-ASCII Unicode digits, outside this model. -/
def pyIsDigit (c : Char) : Bool := c.isDigit

/-- Python `str.isalpha` restricted to ASCII letters.  Python additionally
accepts non-ASCII Unicode letters, outside this model. -/
def pyIsAlpha (c : Char) : Bool := c.isAlpha

/-- The code points Python's `str.strip()` removes: ASCII whitespace
(tab, LF, VT, FF, CR, space), the C1 separators 0x1C-0x1F, NEL 0x85,
and the Unicode Zs/Zl/Zp classes. -/
def pyIsSpace (c : Char) : Bool :=
  [9, 10, 11, 12, 13, 28, 29, 30, 31, 32, 133, 160, 5760,
   8192, 8193, 8194, 8195, 8196, 8197, 8198, 8199, 8200, 8201, 8202,
   8232, 8233, 8239, 8287, 12288].contains c.toNat

/-- Python `str.strip()`: drop leading and trailing whitespace. -/
def pyStrip (l : List Char) : List Char :=
  ((l.dropWhile pyIsSpace).reverse.dropWhile pyIsSpace).reverse

/-- `pyStrip` on `String`. -/
def pyStripStr (s : String) : String := ⟨pyStrip s.data⟩

/-- Python `text.split(chr(10))`: split on each newline character; the
empty string yields one empty field, as in Python. -/
def splitOnNewline : List Char → List (List Char)
  | [] => [[]]
  | c :: cs =>
    if c = '\n' then [] :: splitOnNewline cs
    else
      match splitOnNewline cs with
      | [] => [[c]]
      | l :: ls => (c :: l) :: ls

/-- Index of the first alphabetic character of a list, if any. -/
def firstIdxAlpha : List Char → Option Nat
  | [] => none
  | c :: cs => if pyIsAlpha c then some 0 else (firstIdxAlpha cs).map (· + 1)

/-- The prefix-stripping loop of `parse_suggestions` (`app.py` lines
154-161): walk `line` with index `i`; on the first alphabetic character
return `line[i:]`; the walk stops after index 6 because the `i > 5` break
is tested only after the alphabetic test of the same iteration. -/
def stripLoop (line : List Char) : Nat → List Char → List Char
  | _, [] => line
  | i, c :: cs =>
    if pyIsAlpha c then line.drop i
    else if 5 < i then line
    else stripLoop line (i + 1) cs

/-- The `cleaned = line[i:]` computation of `parse_suggestions`: drop a
leading non-alphabetic prefix found near the start of the line. -/
def stripLeadingNonAlpha (line : List Char) : List Char := stripLoop line 0 line

/-- The accumulation loop of `parse_suggestions` (`app.py` lines 148-167):
skip likely headers while fewer than 3 questions are collected, strip the
leading prefix, accept lines that contain a question mark or are longer
than 10 characters. -/
def parseLines : List (List Char) → List String → List String
  | [], questions => questions
  | line :: rest, questions =>
    if ¬ (line.take 2).any pyIsDigit ∧ questions.length < 3 then
      parseLines rest questions
    else
      let cleaned := stripLeadingNonAlpha line
      if cleaned ≠ [] ∧ '?' ∈ cleaned then
        parseLines rest (questions ++ [⟨pyStrip cleaned⟩])
      else if cleaned ≠ [] ∧ cleaned.length > 10 then
        parseLines rest (questions ++ [⟨pyStrip cleaned⟩])
      else
        parseLines rest questions

/-- Line preprocessing of `parse_suggestions` (`app.py` line 145): split on
newlines, strip each line, drop the empty ones. -/
def suggestionLines (text : String) : List (List Char) :=
  ((splitOnNewline text.data).map pyStrip).filter (fun l => ¬ l = [])

/-- The fixed fallback triple returned when no suggestion is accepted. -/
def fallbackSuggestions : List String :=
  ["What were the main challenges?",
   "What\x27s planned for next week?",
   "Is the timeline on track?"]

/-- `parse_suggestions` (`app.py` lines 142-172): parse raw LLM text into
at most 3 question strings, falling back to `fallbackSuggestions`. -/
def parse_suggestions (suggestions_text : String) : List String :=
  let questions := parseLines (suggestionLines suggestions_text) []
  if questions = [] then fallbackSuggestions else questions.take 3

example : parse_suggestions "" = fallbackSuggestions := by decide
example : parse_suggestions "1. Is X on track?" = ["Is X on track?"] := by decide

/-- A continuation byte of a UTF-8 sequence: 0x80-0xBF. -/
def isCont (b : Nat) : Bool := 0x80 ≤ b ∧ b < 0xC0

/-- Strict UTF-8 decoding, as performed by Python's `bytes.decode("utf-8")`
(`app.py` line 79): rejects stray continuation bytes, overlong encodings,
surrogate code points and code points above 0x10FFFF; `none` models
`UnicodeDecodeError`. -/
def utf8Decode : List Nat → Option (List Char)
  | [] => some []
  | b :: rest =>
    if b < 0x80 then
      (utf8Decode rest).map (fun cs => Char.ofNat b :: cs)
    else if b < 0xC2 then none
    else if b < 0xE0 then
      match rest with
      | b2 :: rest2 =>
        if isCont b2 then
          (utf8Decode rest2).map (fun cs =>
            Char.ofNat ((b - 0xC0) * 0x40 + (b2 - 0x80)) :: cs)
        else none
      | [] => none
    else if b < 0xF0 then
      match rest with
      | b2 :: b3 :: rest2 =>
        if isCont b2 ∧ isCont b3 ∧ (b = 0xE0 → 0xA0 ≤ b2) ∧ (b = 0xED → b2 < 0xA0) then
          (utf8Decode rest2).map (fun cs =>
            Char.ofNat ((b - 0xE0) * 0x1000 + (b2 - 0x80) * 0x40 + (b3 - 0x80)) :: cs)
        else none
      | _ => none
    else if b < 0xF5 then
      match rest with
      | b2 :: b3 :: b4 :: rest2 =>
        if isCont b2 ∧ isCont b3 ∧ isCont b4 ∧ (b = 0xF0 → 0x90 ≤ b2) ∧ (b = 0xF4 → b2 < 0x90) then
          (utf8Decode rest2).map (fun cs =>
            Char.ofNat ((b - 0xF0) * 0x40000 + (b2 - 0x80) * 0x1000
              + (b3 - 0x80) * 0x40 + (b4 - 0x80)) :: cs)
        else none
      | _ => none
    else none

/-- Python `bytes.decode("latin-1")` (`app.py` line 82): total on bytes,
each byte value becomes the character of the same code point. -/
def latin1Decode (content : List Nat) : String := ⟨content.map Char.ofNat⟩

/-- The decode step of `upload_report` (`app.py` lines 78-82): UTF-8 first,
Latin-1 on `UnicodeDecodeError`. -/
def decodeUploadText (content : List Nat) : String :=
  match utf8Decode content with
  | some cs => ⟨cs⟩
  | none => latin1Decode content

/-- The mutable process state of `app.py`: the `report_storage` dictionary
(`app.py` line 25, modelled as an association list, most recent binding
first) together with the supply of fresh session identifiers.

Modelled from the spec: session identifiers come from `uuid.uuid4()`, an
external library call the spec characterises as "generates a fresh unique
id, never collides in practice"; the model renders the opaque unique
tokens as the naturals handed out by the counter `uuidCounter`. -/
structure ServerState where
  report_storage : List (Nat × String)
  uuidCounter : Nat

/-- Lookup in `report_storage`: Python dictionary indexing / `in` test. -/
def lookupStore : List (Nat × String) → Nat → Option String
  | [], _ => none
  | (k, v) :: rest, id => if id = k then some v else lookupStore rest id

/-- The Report Store `put` operation (`app.py` lines 85-86):
`session_id = str(uuid.uuid4()); report_storage[session_id] = file_text`.
Returns the fresh id and the updated state. -/
def put (text : String) (st : ServerState) : Nat × ServerState :=
  (st.uuidCounter,
   { report_storage := (st.uuidCounter, text) :: st.report_storage,
     uuidCounter := st.uuidCounter + 1 })

/-- The JSON body of a successful upload, with the HTTP status. -/
structure UploadResp where
  status : Nat
  message : String
  session_id : Nat

/-- `POST /upload-report/` (`app.py` lines 76-88) on a successfully read
payload: decode the bytes (UTF-8, then Latin-1), store under a fresh
session id, answer 200.  The `except` 500 branch fires only when reading
or decoding raises, which the total model cannot reach. -/
def upload_report (content : List Nat) (st : ServerState) : UploadResp × ServerState :=
  let file_text := decodeUploadText content
  let r := put file_text st
  ({ status := 200, message := "Report uploaded successfully", session_id := r.1 }, r.2)

/-- Request body of `POST /ask-question/` (`app.py` lines 91-93). -/
structure QuestionRequest where
  question : String
  session_id : Nat

/-- Response of `POST /ask-question/`: either the 200 body or an
`HTTPException` with status and detail. -/
inductive AskResp where
  | ok (answer : String) (suggestions : List String)
  | httpError (status : Nat) (detail : String)
deriving DecidableEq

/-- The answer prompt: `qa_prompt` (`app.py` lines 38-51) after template
substitution of the report and the question. -/
def qaPromptText (report question : String) : String :=
  "\nYou are a helpful assistant that answers questions about an employee\x27s task report.\n\nTask Report:\n"
  ++ report
  ++ "\n\nManager\x27s Question: "
  ++ question
  ++ "\n\nAnswer the question directly and professionally based only on the information in the report. \nIf the information isn\x27t available in the report, say so clearly.\n\nAnswer:\n"

/-- The follow-up prompt: `followup_prompt` (`app.py` lines 54-67) after
template substitution of the report and the question. -/
def followupPromptText (report question : String) : String :=
  "\nGiven the following manager\x27s question and task report, suggest 3 intelligent follow-up questions \nthat the manager might want to ask next. Make them specific and relevant to the report content.\n\nTask Report:\n"
  ++ report
  ++ "\n\nInitial Question: "
  ++ question
  ++ "\n\nProvide exactly 3 follow-up questions in a clean, numbered list without additional explanation.\nEach question should be concise (under 10 words if possible):\n\n"

/-- `POST /ask-question/` (`app.py` lines 97-139).  `llmInit` models the
availability of the `OllamaLLM` client (the startup instance, or the
retried construction at line 112 — a construction failure raises into the
`except` and yields 500).  `answerLLM` and `followupLLM` are the two
`ainvoke` completions; `Except.error` models a raised exception, which
`asyncio.gather` re-raises so the whole request fails with 500.  Returns
the response, the (unchanged) state, and the list of prompts for which a
completion was attempted.  The error-detail string of the double-failure
case is a deterministic choice the concurrent original leaves open; no
claim concerns its text. -/
def ask_question (llmInit : Except String Unit)
    (answerLLM followupLLM : String → Except String String)
    (st : ServerState) (req : QuestionRequest) :
    AskResp × ServerState × List String :=
  match lookupStore st.report_storage req.session_id with
  | none =>
    (.httpError 404 "No report found. Please upload a report first.", st, [])
  | some report_text =>
    match llmInit with
    | .error e =>
      (.httpError 500 ("Error processing question: " ++ e), st, [])
    | .ok _ =>
      match answerLLM (qaPromptText report_text req.question),
            followupLLM (followupPromptText report_text req.question) with
      | .ok answer, .ok suggestions_text =>
        (.ok (pyStripStr answer) (parse_suggestions suggestions_text), st,
         [qaPromptText report_text req.question, followupPromptText report_text req.question])
      | .error e, _ =>
        (.httpError 500 ("Error processing question: " ++ e), st,
         [qaPromptText report_text req.question, followupPromptText report_text req.question])
      | .ok _, .error e =>
        (.httpError 500 ("Error processing question: " ++ e), st,
         [qaPromptText report_text req.question, followupPromptText report_text req.question])

/-- `GET /` (`app.py` lines 69-71): the health check. -/
def root (st : ServerState) : String × ServerState :=
  ("Task Report QA API is running", st)

/-- All session ids stored so far were handed out by the counter. -/
def StoreWF (st : ServerState) : Prop :=
  ∀ p ∈ st.report_storage, p.1 < st.uuidCounter

instance (st : ServerState) : Decidable (StoreWF st) :=
  inferInstanceAs (Decidable (∀ p ∈ st.report_storage, p.1 < st.uuidCounter))

/-! ## Helper lemmas -/

theorem parseLines_all_skipped :
    ∀ lines : List (List Char),
      (∀ l ∈ lines, (l.take 2).any pyIsDigit = false) →
      parseLines lines [] = []
  | [], _ => rfl
  | line :: rest, h => by
    have h1 := h line (List.mem_cons_self _ _)
    have ih := parseLines_all_skipped rest (fun l hl => h l (List.mem_cons_of_mem _ hl))
    simp [parseLines, h1, ih]

theorem lookupStore_lt_of_wf :
    ∀ (σ : List (Nat × String)) (n id : Nat) (t : String),
      (∀ p ∈ σ, p.1 < n) → lookupStore σ id = some t → id < n
  | [], _, _, _, _, h => by simp [lookupStore] at h
  | (k, v) :: rest, n, id, t, hwf, h => by
    by_cases hk : id = k
    · subst hk
      exact hwf (id, v) (List.mem_cons_self _ _)
    · simp [lookupStore, hk] at h
      exact lookupStore_lt_of_wf rest n id t
        (fun p hp => hwf p (List.mem_cons_of_mem _ hp)) h

theorem stripLoop_spec (line : List Char) :
    ∀ (rest : List Char) (i : Nat), i ≤ 6 → line.drop i = rest →
      stripLoop line i rest =
        match firstIdxAlpha ((line.drop i).take (7 - i)) with
        | some j => line.drop (i + j)
        | none => line := by
  intro rest
  induction rest with
  | nil =>
    intro i hi hdrop
    rw [hdrop]
    simp [stripLoop, firstIdxAlpha]
  | cons c cs ih =>
    intro i hi hdrop
    rw [hdrop]
    have h7 : 7 - i = (6 - i) + 1 := by omega
    rw [h7, List.take_succ_cons]
    by_cases hc : pyIsAlpha c
    · simp [stripLoop, hc, firstIdxAlpha]
    · by_cases hi5 : 5 < i
      · have hi6 : i = 6 := by omega
        subst hi6
        simp [stripLoop, hc, firstIdxAlpha]
      · have hdrop1 : line.drop (i + 1) = cs := by
          have h1 : line.drop (i + 1) = (line.drop i).drop 1 := by
            rw [List.drop_drop]
          rw [h1, hdrop]
          rfl
        have hrec := ih (i + 1) (by omega) hdrop1
        have h6 : 7 - (i + 1) = 6 - i := by omega
        rw [hdrop1, h6] at hrec
        have hlhs : stripLoop line i (c :: cs) = stripLoop line (i + 1) cs := by
          simp [stripLoop, hc, hi5]
        rw [hlhs, hrec]
        simp only [firstIdxAlpha, hc, if_neg]
        cases hfi : firstIdxAlpha (cs.take (6 - i)) with
        | none => simp
        | some j =>
          have hj : i + 1 + j = i + (j + 1) := by omega
          simp [hj]

/-! ## Claim theorems -/

/-- C1: `parse_suggestions` is total and, for every input string, returns
at most 3 strings; it returns exactly the fixed fallback triple whenever no
processed line of the input begins with a digit within its first 2
characters (in particular on the empty string, whose processed line list is
empty). -/
theorem parse_suggestions_total_bound (s : String) :
    (parse_suggestions s).length ≤ 3 ∧
    ((∀ l ∈ suggestionLines s, (l.take 2).any pyIsDigit = false) →
      parse_suggestions s = fallbackSuggestions) := by
  constructor
  · unfold parse_suggestions
    by_cases h : parseLines (suggestionLines s) [] = []
    · simp [h, fallbackSuggestions]
    · rw [if_neg h]
      simp only [List.length_take]
      omega
  · intro h
    have h0 := parseLines_all_skipped (suggestionLines s) h
    simp [parse_suggestions, h0]

/-- Witness for C1: a header-only input (no line digit-led) yields the
fallback triple. -/
theorem parse_suggestions_total_bound_witness :
    parse_suggestions "Sure, here are some follow-ups:" = fallbackSuggestions :=
  (parse_suggestions_total_bound "Sure, here are some follow-ups:").2 (by decide)

/-- C2 counterexample: in the line "12345/Is it on track?" the first
alphabetic character appears at index 6 (the 7th character), past the
claimed 6-character window, yet the prefix IS stripped: the claim that such
a line is kept unmodified is false. -/
theorem strip_window_counterexample :
    firstIdxAlpha ("12345/Is it on track?".data.take 6) = none ∧
    stripLeadingNonAlpha "12345/Is it on track?".data = "Is it on track?".data ∧
    "Is it on track?".data ≠ "12345/Is it on track?".data ∧
    parse_suggestions "12345/Is it on track?" = ["Is it on track?"] := by
  refine ⟨by decide, by decide, by decide, by decide⟩

/-- C2 amended: the prefix strip scans the first 7 characters (indices
0-6) of the line for the first alphabetic character — the `i > 5` break of
the source runs after the alphabetic test of the same iteration — dropping
everything before the first alphabetic index when one exists there and
keeping the line unmodified otherwise. -/
theorem strip_window_seven (l : List Char) :
    stripLeadingNonAlpha l =
      match firstIdxAlpha (l.take 7) with
      | some i => l.drop i
      | none => l := by
  have h := stripLoop_spec l l 0 (by omega) (by simp)
  simpa [stripLeadingNonAlpha] using h

/-- C3: three numbered lines parse to exactly their three question texts,
in order. -/
theorem parse_suggestions_three_numbered :
    parse_suggestions "1. Is X on track?\n2. What about Y?\n3. Will Z ship?" =
      ["Is X on track?", "What about Y?", "Will Z ship?"] := by decide

/-- C4: the header line is not digit-led (so the header-skip rule skips
it while fewer than 3 questions are collected), the line "1) Short" is
digit-led (not skipped) and cleans to "Short", which has no question mark
and length at most 10 so it is excluded; the final output is exactly the
two surviving questions. -/
theorem parse_suggestions_header_short :
    ("Sure, here are three questions:".data.take 2).any pyIsDigit = false ∧
    ("1) Short".data.take 2).any pyIsDigit = true ∧
    stripLeadingNonAlpha "1) Short".data = "Short".data ∧
    ¬ '?' ∈ "Short".data ∧ "Short".length ≤ 10 ∧
    parse_suggestions
        "Sure, here are three questions:\n1) Short\n2) Are deadlines firm?\n3) Budget?" =
      ["Are deadlines firm?", "Budget?"] := by
  refine ⟨by decide, by decide, by decide, by decide, by decide, by decide⟩

/-- C5: the report store round-trips — looking up the session id returned
by `put T` yields `T` — and two successive `put` operations return distinct
session identifiers. -/
theorem put_roundtrip_fresh (st : ServerState) (T T' : String) :
    lookupStore (put T st).2.report_storage (put T st).1 = some T ∧
    (put T st).1 ≠ (put T' (put T st).2).1 := by
  constructor
  · simp [put, lookupStore]
  · simp [put]

/-- C6: for every session id absent from the report store and every
question, `ask_question` fails with the 404 not-found error, whatever the
LLM oracles would do, and attempts no completion (the prompt trace is
empty). -/
theorem ask_question_unknown_404 (init : Except String Unit)
    (a f : String → Except String String) (st : ServerState) (req : QuestionRequest)
    (h : lookupStore st.report_storage req.session_id = none) :
    ask_question init a f st req =
      (.httpError 404 "No report found. Please upload a report first.", st, []) := by
  simp [ask_question, h]

/-- Witness for C6: the empty store knows no session 7. -/
theorem ask_question_unknown_404_witness :
    ask_question (.ok ()) (fun _ => .ok "A") (fun _ => .ok "B")
        ⟨[], 0⟩ ⟨"What is blocking progress?", 7⟩ =
      (.httpError 404 "No report found. Please upload a report first.", ⟨[], 0⟩, []) :=
  ask_question_unknown_404 _ _ _ _ _ rfl

/-- C7: for a known session, if either completion (or the lazy client
construction) raises, the whole request fails with a 500 error; and a 200
response implies both completions succeeded, the answer being the stripped
answer completion and the suggestions the parse of the follow-up
completion — no partial result exists. -/
theorem ask_question_all_or_nothing (init : Except String Unit)
    (a f : String → Except String String) (st : ServerState) (req : QuestionRequest)
    (rpt : String) (h : lookupStore st.report_storage req.session_id = some rpt) :
    (((∃ e, a (qaPromptText rpt req.question) = .error e) ∨
      (∃ e, f (followupPromptText rpt req.question) = .error e) ∨
      (∃ e, init = .error e)) →
      ∃ d, (ask_question init a f st req).1 = .httpError 500 d) ∧
    (∀ ans sug, (ask_question init a f st req).1 = .ok ans sug →
      ∃ a0 s0, a (qaPromptText rpt req.question) = .ok a0 ∧
        f (followupPromptText rpt req.question) = .ok s0 ∧
        ans = pyStripStr a0 ∧ sug = parse_suggestions s0) := by
  cases init with
  | error e =>
    constructor
    · intro _
      exact ⟨"Error processing question: " ++ e, by simp [ask_question, h]⟩
    · intro ans sug hok
      simp [ask_question, h] at hok
  | ok u =>
    cases ha : a (qaPromptText rpt req.question) with
    | error e =>
      constructor
      · intro _
        exact ⟨"Error processing question: " ++ e, by simp [ask_question, h, ha]⟩
      · intro ans sug hok
        simp [ask_question, h, ha] at hok
    | ok a0 =>
      cases hf : f (followupPromptText rpt req.question) with
      | error e =>
        constructor
        · intro _
          exact ⟨"Error processing question: " ++ e, by simp [ask_question, h, ha, hf]⟩
        · intro ans sug hok
          simp [ask_question, h, ha, hf] at hok
      | ok s0 =>
        constructor
        · intro hor
          rcases hor with ⟨e, he⟩ | ⟨e, he⟩ | ⟨e, he⟩ <;> exact absurd he (by simp)
        · intro ans sug hok
          simp [ask_question, h, ha, hf] at hok
          exact ⟨a0, s0, rfl, rfl, hok.1.symm, hok.2.symm⟩

/-- Witness for C7: with a failing answer completion on a known session,
the request yields a 500 error. -/
theorem ask_question_all_or_nothing_witness :
    ∃ d, (ask_question (.ok ()) (fun _ => .error "boom") (fun _ => .ok "1. Q?")
      ⟨[(5, "report")], 6⟩ ⟨"q", 5⟩).1 = .httpError 500 d :=
  (ask_question_all_or_nothing (.ok ()) (fun _ => .error "boom") (fun _ => .ok "1. Q?")
      ⟨[(5, "report")], 6⟩ ⟨"q", 5⟩ "report" rfl).1 (Or.inl ⟨"boom", rfl⟩)

/-- C8: uploading bytes that are not valid UTF-8 succeeds: the stored text
is the Latin-1 decoding, the response carries the fresh session id and
status 200. -/
theorem upload_latin1_fallback (st : ServerState) (content : List Nat)
    (hrange : ∀ b ∈ content, b < 256) (hfail : utf8Decode content = none) :
    (upload_report content st).1.status = 200 ∧
    (upload_report content st).1.session_id = st.uuidCounter ∧
    lookupStore (upload_report content st).2.report_storage st.uuidCounter
      = some (latin1Decode content) := by
  refine ⟨rfl, rfl, ?_⟩
  simp [upload_report, decodeUploadText, hfail, put, lookupStore]

/-- Witness for C8: the byte 255 cannot start a UTF-8 sequence, so the
payload [255, 72, 105] takes the Latin-1 path. -/
theorem upload_latin1_fallback_witness :
    (upload_report [255, 72, 105] ⟨[], 0⟩).1.status = 200 ∧
    (upload_report [255, 72, 105] ⟨[], 0⟩).1.session_id = 0 ∧
    lookupStore (upload_report [255, 72, 105] ⟨[], 0⟩).2.report_storage 0
      = some (latin1Decode [255, 72, 105]) :=
  upload_latin1_fallback ⟨[], 0⟩ [255, 72, 105] (by decide) (by decide)

/-- C9: only upload mutates the report store — the health check and
`ask_question` (in all outcomes) return the state unchanged, and an upload
into a well-formed store preserves every existing binding (and
well-formedness), so no stored report text is ever modified. -/
theorem report_store_frame (st : ServerState) :
    (root st).2 = st ∧
    (∀ init a f req, (ask_question init a f st req).2.1 = st) ∧
    (∀ (content : List Nat) (id : Nat) (t : String), StoreWF st →
      lookupStore st.report_storage id = some t →
      lookupStore (upload_report content st).2.report_storage id = some t) ∧
    (∀ content : List Nat, StoreWF st → StoreWF (upload_report content st).2) := by
  refine ⟨rfl, ?_, ?_, ?_⟩
  · intro init a f req
    unfold ask_question
    split
    · rfl
    · split
      · rfl
      · split <;> rfl
  · intro content id t hwf hget
    have hid : id < st.uuidCounter :=
      lookupStore_lt_of_wf st.report_storage st.uuidCounter id t hwf hget
    have hne : id ≠ st.uuidCounter := by omega
    simp [upload_report, put, lookupStore, hne, hget]
  · intro content hwf p hp
    have hp' : p = (st.uuidCounter, decodeUploadText content) ∨ p ∈ st.report_storage := by
      simpa [upload_report, put] using hp
    rcases hp' with hp' | hp'
    · simp [upload_report, put, hp']
    · have hlt := hwf p hp'
      simp only [upload_report, put]
      omega

/-- Witness for C9: uploading into a one-report well-formed store leaves
the existing binding intact. -/
theorem report_store_frame_witness :
    lookupStore (upload_report [65] ⟨[(0, "r")], 1⟩).2.report_storage 0 = some "r" :=
  (report_store_frame ⟨[(0, "r")], 1⟩).2.2.1 [65] 0 "r" (by decide) (by decide)

/-- C10: for every input, `parse_suggestions` returns between 1 and 3
strings — the fallback triple fills in whenever no line is accepted. -/
theorem parse_suggestions_one_to_three (s : String) :
    1 ≤ (parse_suggestions s).length ∧ (parse_suggestions s).length ≤ 3 := by
  unfold parse_suggestions
  cases h : parseLines (suggestionLines s) [] with
  | nil => simp [fallbackSuggestions]
  | cons q qs =>
    rw [if_neg (List.cons_ne_nil q qs)]
    simp only [List.length_take, List.length_cons]
    omega

end TaskReportQA
